import Mathlib

/-!
Shallow embedding of the Observability-agent VS Code extension
(`src/extension/src/extension.ts`).

The extension mediates between a chat-style webview panel and a remote
question-answering HTTP service.  The parts embedded here are:

* the JSON value type and the response-completion logic of `postJson`
  (status check, body parse) — lines 327-343 of the source;
* the `ServiceResponse` shape and the arch-drift classification inside
  `ObservabilityPanel.handleAsk` — lines 140-195;
* the webview message dispatch (`ask` / `openArchDrift`) — lines 120-137;
* the two panel registries (`ArchDriftPanel.panels` keyed map and the
  `ObservabilityPanel.currentPanel` slot) with their create-or-show and
  dispose operations — lines 13-49, 83-106, 197-209.

Effects (messages posted to the webview, transport invocations, panel
show requests, external-open requests) are reified as an `Event` trace;
the single awaited transport outcome is passed in as an explicit
`Except` value, which is how the one suspension point of `handleAsk`
surfaces in a pure embedding.  Panel object identity is modelled by a
fresh-id counter: construction allocates the next id, so "a new
instance distinct from the disposed one" is expressible.
-/

/-- JSON values, as produced by the host JSON parser.  The embedding
only ever needs the empty object `Json.obj []` concretely; all other
values appear abstractly. -/
inductive Json where
  | null : Json
  | bool (b : Bool) : Json
  | num (n : Int) : Json
  | str (s : String) : Json
  | arr (elems : List Json) : Json
  | obj (fields : List (String × Json)) : Json

/-- Failure outcomes of `postJson`: an HTTP status of at least 400
(`reject(new Error("HTTP error! status: " + code))`), a body that the
JSON parser rejected (the error raised by the parser is re-rejected), or a
connection-level error from `req.on("error", ...)` / the outer catch. -/
inductive PostError where
  | httpStatus (code : Nat) : PostError
  | parseFailure (cause : String) : PostError
  | connection (cause : String) : PostError

/-- The `message` property of the rejected error object, as read by
`err?.message ?? String(err)` in `handleAsk`. -/
def PostError.message : PostError → String
  | .httpStatus code => "HTTP error! status: " ++ toString code
  | .parseFailure cause => cause
  | .connection cause => cause

/-- The `end`-of-response logic of `postJson` (extension.ts lines
332-342): if `res.statusCode` is truthy and at least 400 the promise is
rejected with the status error; otherwise a non-empty body is run
through the JSON parser (`JSON.parse` is a host builtin, so it enters
the embedding as the function argument `jsonParse`), resolving with the
parsed value or rejecting with the parse failure; an empty body skips
the parser and resolves with the empty object literal. -/
def postJsonOnEnd (jsonParse : String → Except String Json)
    (statusCode : Option Nat) (data : String) : Except PostError Json :=
  let parseBody : Except PostError Json :=
    if data = "" then .ok (Json.obj [])
    else
      match jsonParse data with
      | .ok parsed => .ok parsed
      | .error cause => .error (.parseFailure cause)
  match statusCode with
  | some code => if 400 ≤ code then .error (.httpStatus code) else parseBody
  | none => parseBody

/-- Whether an HTTP status code is in the 2xx success range. -/
def is2xx (code : Nat) : Bool :=
  decide (200 ≤ code) && decide (code < 300)

/-- A stand-in for the host JSON parser that rejects every body.  In
particular it rejects the empty string, which agrees with the real
`JSON.parse`: the empty text is a JSON syntax error. -/
def parseNone : String → Except String Json :=
  fun _ => .error "Unexpected end of JSON input"

/-- A stand-in for the host JSON parser that accepts every body as the
empty object. -/
def parseAny : String → Except String Json :=
  fun _ => .ok (Json.obj [])

/-- The typed shape `handleAsk` reads off the parsed response body
(extension.ts lines 154-160): every field optional. -/
structure ServiceResponse where
  answer : Option String
  score : Option Int
  trace : Option Json
  mode : Option String
  driftData : Option Json

/-- JavaScript `String.prototype.trim`, a host builtin, embedded
directly: strip whitespace characters from both ends of the string. -/
def jsTrim (s : String) : String :=
  ⟨((s.data.dropWhile Char.isWhitespace).reverse.dropWhile Char.isWhitespace).reverse⟩

/-- JavaScript `String.prototype.toLowerCase`, a host builtin, embedded
directly: lowercase every character.  Both the code and the
specification apply the same lowercasing to the answer before the
substring test, so one shared embedding serves both sides. -/
def jsToLower (s : String) : String :=
  ⟨s.data.map Char.toLower⟩

/-- JavaScript `String.prototype.includes` on character lists: `pat`
occurs contiguously inside the list. -/
def charsContain (pat : List Char) : List Char → Bool
  | [] => pat.isEmpty
  | c :: rest => pat.isPrefixOf (c :: rest) || charsContain pat rest

/-- JavaScript `haystack.includes(needle)`: substring containment. -/
def jsIncludes (haystack needle : String) : Bool :=
  charsContain needle.data haystack.data

/-- The arch-drift test of `handleAsk` (extension.ts lines 163-166):
`data.mode === "arch_drift" || (typeof data.answer === "string" &&
data.answer.toLowerCase().includes("archdrift ui"))`. -/
def isArchDrift (data : ServiceResponse) : Bool :=
  decide (data.mode = some "arch_drift") ||
    (match data.answer with
     | some a => jsIncludes (jsToLower a) "archdrift ui"
     | none => false)

/-- Classification outcomes of a service response. -/
inductive Classification where
  | answer : Classification
  | redirect : Classification
deriving DecidableEq

/-- The classification the code performs: the `if (isArchDrift)` branch
of `handleAsk` redirects, the fall-through emits an answer. -/
def classify (data : ServiceResponse) : Classification :=
  if isArchDrift data then .redirect else .answer

/-- Modelled from the spec: the three-step precedence rule exactly as
the specification words it — (a) `mode` equal to the literal
discriminator forces Redirect; (b) otherwise an `answer` whose
lowercase form contains the literal link substring forces Redirect;
(c) otherwise Answer. -/
def classifySpec (data : ServiceResponse) : Classification :=
  if data.mode = some "arch_drift" then .redirect
  else if (match data.answer with
           | some a => jsIncludes (jsToLower a) "archdrift ui"
           | none => false) then .redirect
  else .answer

/-- Observable effects of the controller, in emission order: messages
posted to the webview (`status` / `answer` / `error`), the transport
invocation, the arch-drift panel show request, and the external-open
request. -/
inductive Event where
  | status (message : String) : Event
  | answer (question : String) (answer : String) (score : Option Int)
      (trace : Option Json) (mode : Option String)
      (driftData : Option Json) : Event
  | error (question : String) (message : String) : Event
  | transportCall (url : String) (question : String) : Event
  | showArchDrift : Event
  | openExternal (url : String) : Event

/-- Whether an event is an outbound `status` message. -/
def Event.isStatus : Event → Bool
  | .status _ => true
  | _ => false

/-- Whether an event is an outbound `answer` message. -/
def Event.isAnswer : Event → Bool
  | .answer _ _ _ _ _ _ => true
  | _ => false

/-- Whether an event is an outbound `error` message. -/
def Event.isErrorMsg : Event → Bool
  | .error _ _ => true
  | _ => false

/-- Whether an event is a transport invocation. -/
def Event.isTransportCall : Event → Bool
  | .transportCall _ _ => true
  | _ => false

/-- The fixed endpoint `handleAsk` posts to. -/
def apiUrl : String := "http://localhost:8000/ask"

/-- The fixed human-readable text prepended to every error bubble. -/
def serviceErrorHeader : String :=
  "Could not reach the observability service at http://localhost:8000/ask. Is it running?\n\n"

/-- `ObservabilityPanel.handleAsk` (extension.ts lines 140-195) as an
event trace.  The question is trimmed; a blank question returns before
any emission.  Otherwise the `Thinking...` status is posted, the
transport is invoked, and the awaited outcome — supplied here as the
explicit `outcome` argument — is dispatched: an arch-drift response
shows the ArchDrift panel and posts nothing, any other response posts
the `answer` message with `?? `-defaulted fields, and a rejection is
caught and posted as the `error` message built from the fixed header
and the cause text. -/
def handleAsk (question : String)
    (outcome : Except PostError ServiceResponse) : List Event :=
  let trimmedQuestion := jsTrim question
  if trimmedQuestion = "" then []
  else
    Event.status "Thinking..." ::
    Event.transportCall apiUrl trimmedQuestion ::
    match outcome with
    | .ok data =>
        if isArchDrift data then [Event.showArchDrift]
        else [Event.answer trimmedQuestion (data.answer.getD "") data.score
                data.trace data.mode data.driftData]
    | .error err =>
        [Event.error trimmedQuestion (serviceErrorHeader ++ err.message)]

/-- Inbound webview messages: the `type` discriminator plus the field
each case reads.  `openArchDrift` carries `message.url`, which may be
absent; `unknownKind` stands for any other `type` value, which the
switch ignores. -/
inductive InboundMessage where
  | ask (text : String) : InboundMessage
  | openArchDrift (url : Option String) : InboundMessage
  | unknownKind (kind : String) : InboundMessage

/-- The `onDidReceiveMessage` dispatch (extension.ts lines 120-137).
`ask` is forwarded to `handleAsk`; `openArchDrift` requests an external
open only when `message.url` is truthy (present and non-empty); any
other message kind falls through the switch with no effect. -/
def webviewMessageHandler (msg : InboundMessage)
    (outcome : Except PostError ServiceResponse) : List Event :=
  match msg with
  | .ask text => handleAsk text outcome
  | .openArchDrift url =>
      match url with
      | some u => if u = "" then [] else [Event.openExternal u]
      | none => []
  | .unknownKind _ => []

/-- What a show request did: constructed a fresh panel, or revealed the
already-registered one.  Panel identity is a `Nat` drawn from a fresh-id
counter, modelling host object allocation. -/
inductive PanelAction where
  | created (id : Nat) : PanelAction
  | revealed (id : Nat) : PanelAction
deriving DecidableEq

/-- The key `ArchDriftPanel.createOrShow` registers its panel under. -/
def archDriftPanelKey : String := "archdrift-main"

/-- State behind `ArchDriftPanel`: the static `panels : Map<string,
WebviewPanel>` (a JavaScript `Map` holds at most one value per key, so
it is embedded as a function into `Option`), plus the allocator
counter. -/
structure ArchRegistry where
  panels : String → Option Nat
  nextId : Nat

/-- `ArchDriftPanel.createOrShow` (extension.ts lines 13-49): if a
panel is registered under the key it is revealed and nothing changes;
otherwise a fresh panel is constructed, its dispose hook is wired, and
it is registered under the key. -/
def archCreateOrShow (s : ArchRegistry) : ArchRegistry × PanelAction :=
  match s.panels archDriftPanelKey with
  | some p => (s, .revealed p)
  | none =>
      ({ panels := fun k => if k = archDriftPanelKey then some s.nextId else s.panels k,
         nextId := s.nextId + 1 },
       .created s.nextId)

/-- The `onDidDispose` hook `ArchDriftPanel.createOrShow` installs
(extension.ts lines 44-46): the registry entry for the key is deleted. -/
def archDispose (s : ArchRegistry) : ArchRegistry :=
  { s with panels := fun k => if k = archDriftPanelKey then none else s.panels k }

/-- State behind `ObservabilityPanel`: the static `currentPanel`
singleton slot (the chat panel and its session controller are one
object), plus the allocator counter. -/
structure ChatRegistry where
  currentPanel : Option Nat
  nextId : Nat

/-- `ObservabilityPanel.createOrShow` (extension.ts lines 83-106): an
existing `currentPanel` is revealed; otherwise a fresh panel is
constructed and stored in `currentPanel`. -/
def chatCreateOrShow (s : ChatRegistry) : ChatRegistry × PanelAction :=
  match s.currentPanel with
  | some p => (s, .revealed p)
  | none =>
      ({ currentPanel := some s.nextId, nextId := s.nextId + 1 },
       .created s.nextId)

/-- `ObservabilityPanel.dispose` (extension.ts lines 197-209): clears
`currentPanel` — discarding the panel object together with its message
handlers, i.e. its session controller — and disposes the host
resources. -/
def chatDispose (s : ChatRegistry) : ChatRegistry :=
  { s with currentPanel := none }

/-- A concrete plain-answer service response, as in the Scenario A
exchange. -/
def plainAnswerResponse : ServiceResponse :=
  { answer := some "check the cache", score := some 1, trace := none,
    mode := none, driftData := none }

/-- A concrete service response carrying only the drift discriminator,
as in the `{"mode": "arch_drift"}` scenario. -/
def archDriftResponse : ServiceResponse :=
  { answer := none, score := none, trace := none,
    mode := some "arch_drift", driftData := none }

/-- C1: classification follows the stated precedence — `mode` equal to
the literal `arch_drift` forces Redirect regardless of the answer;
otherwise an answer whose lowercase form contains `archdrift ui`
forces Redirect; otherwise the response is an Answer.  The branch the
code takes (`classify`) coincides with the three-step rule exactly as
the claim words it (`classifySpec`) on every response. -/
theorem classification_follows_precedence (data : ServiceResponse) :
    classify data = classifySpec data := by
  unfold classify classifySpec isArchDrift
  by_cases h : data.mode = some "arch_drift" <;> simp [h]

/-- C3: a question that trims to the empty string is dropped before
any emission: no status, answer or error message is posted and the
transport is never invoked, whatever outcome the transport would have
produced. -/
theorem blank_ask_is_dropped (question : String)
    (outcome : Except PostError ServiceResponse)
    (hq : jsTrim question = "") : handleAsk question outcome = [] := by
  unfold handleAsk
  simp [hq]

/-- Witness for C3 at the whitespace-only question of Scenario B. -/
theorem blank_ask_is_dropped_witness :
    (jsTrim "   " = "") ∧
      handleAsk "   " (Except.error (PostError.connection "unused")) = [] :=
  ⟨by decide, blank_ask_is_dropped "   " (Except.error (PostError.connection "unused")) (by decide)⟩

/-- C4: a question that trims to non-empty emits the `Thinking...`
status first, and no other status message ever follows in the
exchange — so exactly one status is emitted and it precedes the
terminal answer or error. -/
theorem nonblank_ask_emits_one_status (question : String)
    (outcome : Except PostError ServiceResponse) (hq : jsTrim question ≠ "") :
    ∃ rest, handleAsk question outcome = Event.status "Thinking..." :: rest ∧
      ∀ e ∈ rest, e.isStatus = false := by
  rcases outcome with err | data
  · refine ⟨[Event.transportCall apiUrl (jsTrim question),
      Event.error (jsTrim question) (serviceErrorHeader ++ err.message)], ?_, ?_⟩
    · unfold handleAsk
      simp [hq]
    · intro e he
      simp only [List.mem_cons, List.not_mem_nil, or_false] at he
      rcases he with rfl | rfl
      · rfl
      · rfl
  · by_cases h : isArchDrift data = true
    · refine ⟨[Event.transportCall apiUrl (jsTrim question), Event.showArchDrift], ?_, ?_⟩
      · unfold handleAsk
        simp [hq, h]
      · intro e he
        simp only [List.mem_cons, List.not_mem_nil, or_false] at he
        rcases he with rfl | rfl
        · rfl
        · rfl
    · refine ⟨[Event.transportCall apiUrl (jsTrim question),
        Event.answer (jsTrim question) (data.answer.getD "") data.score
          data.trace data.mode data.driftData], ?_, ?_⟩
      · unfold handleAsk
        simp [hq, h]
      · intro e he
        simp only [List.mem_cons, List.not_mem_nil, or_false] at he
        rcases he with rfl | rfl
        · rfl
        · rfl

/-- Witness for C4 at the Scenario A question with a plain answer
response. -/
theorem nonblank_ask_emits_one_status_witness :
    (jsTrim "Why is my app slow?" ≠ "") ∧
      ∃ rest, handleAsk "Why is my app slow?" (Except.ok plainAnswerResponse) =
          Event.status "Thinking..." :: rest ∧
        ∀ e ∈ rest, e.isStatus = false :=
  ⟨by decide, nonblank_ask_emits_one_status "Why is my app slow?"
    (Except.ok plainAnswerResponse) (by decide)⟩

/-- C2: an exchange whose response classifies as Redirect shows the
ArchDrift panel and posts no answer and no error message: the full
trace is status, transport call, panel show request, and nothing in it
is an answer or error message. -/
theorem redirect_suppresses_chat (question : String) (data : ServiceResponse)
    (hq : jsTrim question ≠ "") (hd : isArchDrift data = true) :
    handleAsk question (Except.ok data) =
      [Event.status "Thinking...", Event.transportCall apiUrl (jsTrim question),
       Event.showArchDrift] ∧
    ∀ e ∈ handleAsk question (Except.ok data),
      e.isAnswer = false ∧ e.isErrorMsg = false := by
  have heq : handleAsk question (Except.ok data) =
      [Event.status "Thinking...", Event.transportCall apiUrl (jsTrim question),
       Event.showArchDrift] := by
    unfold handleAsk
    simp [hq, hd]
  refine ⟨heq, ?_⟩
  rw [heq]
  intro e he
  simp only [List.mem_cons, List.not_mem_nil, or_false] at he
  rcases he with rfl | rfl | rfl
  · exact ⟨rfl, rfl⟩
  · exact ⟨rfl, rfl⟩
  · exact ⟨rfl, rfl⟩

/-- Witness for C2 at the Scenario C response `{"mode": "arch_drift"}`. -/
theorem redirect_suppresses_chat_witness :
    ((jsTrim "show the drift" ≠ "") ∧ isArchDrift archDriftResponse = true) ∧
    (handleAsk "show the drift" (Except.ok archDriftResponse) =
      [Event.status "Thinking...",
       Event.transportCall apiUrl (jsTrim "show the drift"),
       Event.showArchDrift] ∧
    ∀ e ∈ handleAsk "show the drift" (Except.ok archDriftResponse),
      e.isAnswer = false ∧ e.isErrorMsg = false) :=
  ⟨⟨by decide, by decide⟩,
   redirect_suppresses_chat "show the drift" archDriftResponse (by decide) (by decide)⟩

/-- C5 counterexample: the code rejects only statuses of at least 400,
not every non-2xx status.  A 301 response (Node does not follow
redirects, so the 301 reaches this handler) with an empty body is not a
2xx success, yet `postJson` resolves with the empty object instead of
failing with a transport error. -/
theorem non2xx_status_can_resolve :
    is2xx 301 = false ∧
      postJsonOnEnd parseNone (some 301) "" = Except.ok (Json.obj []) :=
  ⟨rfl, rfl⟩

/-- C5 amended: for every HTTP response with status at least 400,
`postJson` fails with the transport error carrying that status code,
whatever the body contains and whatever the JSON parser would say —
the body is ignored and no parsed response is ever resolved. -/
theorem http_ge_400_fails_with_status (jsonParse : String → Except String Json)
    (code : Nat) (data : String) (hc : 400 ≤ code) :
    postJsonOnEnd jsonParse (some code) data =
      Except.error (PostError.httpStatus code) := by
  unfold postJsonOnEnd
  simp [hc]

/-- Witness for the amended C5 at a 404 with a non-empty body. -/
theorem http_ge_400_fails_with_status_witness :
    (400 ≤ 404) ∧
      postJsonOnEnd parseAny (some 404) "ignored body" =
        Except.error (PostError.httpStatus 404) :=
  ⟨by decide, http_ge_400_fails_with_status parseAny 404 "ignored body" (by decide)⟩

/-- C6 counterexample: an empty body is not well-formed JSON (the JSON
parser rejects the empty text, as `parseNone` records), yet on a 200
response `postJson` never consults the parser for an empty body and
resolves with the empty object instead of failing with a parse error. -/
theorem empty_body_bypasses_parsing :
    parseNone "" = Except.error "Unexpected end of JSON input" ∧
      is2xx 200 = true ∧
      postJsonOnEnd parseNone (some 200) "" = Except.ok (Json.obj []) :=
  ⟨rfl, rfl, rfl⟩

/-- C6 amended: for every success-status response whose body is
non-empty and rejected by the JSON parser, `postJson` fails with the
parse error; only the empty body bypasses the parser (resolving with
the empty object). -/
theorem malformed_nonempty_body_fails (jsonParse : String → Except String Json)
    (code : Nat) (data cause : String) (hc : is2xx code = true)
    (hd : data ≠ "") (hp : jsonParse data = Except.error cause) :
    postJsonOnEnd jsonParse (some code) data =
      Except.error (PostError.parseFailure cause) := by
  have h300 : code < 300 := by
    unfold is2xx at hc
    simp only [Bool.and_eq_true, decide_eq_true_eq] at hc
    exact hc.2
  have h400 : ¬ 400 ≤ code := by omega
  unfold postJsonOnEnd
  simp [h400, hd, hp]

/-- Witness for the amended C6 at a 200 with a non-JSON body. -/
theorem malformed_nonempty_body_fails_witness :
    (is2xx 200 = true ∧ ("plain text" : String) ≠ "" ∧
       parseNone "plain text" = Except.error "Unexpected end of JSON input") ∧
      postJsonOnEnd parseNone (some 200) "plain text" =
        Except.error (PostError.parseFailure "Unexpected end of JSON input") :=
  ⟨⟨rfl, by decide, rfl⟩,
   malformed_nonempty_body_fails parseNone 200 "plain text"
     "Unexpected end of JSON input" rfl (by decide) rfl⟩

/-- C7: a transport or parse failure during a non-empty exchange is
caught inside `handleAsk` and converted into exactly one error message
whose text is the fixed unreachable-endpoint header followed by the
cause text; no answer message is emitted and the handler returns
normally (the failure never escapes the controller). -/
theorem failure_emits_single_error (question : String) (err : PostError)
    (hq : jsTrim question ≠ "") :
    handleAsk question (Except.error err) =
      [Event.status "Thinking...", Event.transportCall apiUrl (jsTrim question),
       Event.error (jsTrim question) (serviceErrorHeader ++ err.message)] ∧
    (handleAsk question (Except.error err)).countP Event.isErrorMsg = 1 ∧
    (handleAsk question (Except.error err)).countP Event.isAnswer = 0 := by
  have heq : handleAsk question (Except.error err) =
      [Event.status "Thinking...", Event.transportCall apiUrl (jsTrim question),
       Event.error (jsTrim question) (serviceErrorHeader ++ err.message)] := by
    unfold handleAsk
    simp [hq]
  refine ⟨heq, ?_, ?_⟩ <;> rw [heq] <;> rfl

/-- Witness for C7 at the Scenario D connection-refused failure. -/
theorem failure_emits_single_error_witness :
    (jsTrim "ping" ≠ "") ∧
      (handleAsk "ping"
          (Except.error (PostError.connection "connect ECONNREFUSED 127.0.0.1:8000")) =
        [Event.status "Thinking...", Event.transportCall apiUrl (jsTrim "ping"),
         Event.error (jsTrim "ping") (serviceErrorHeader ++
           (PostError.connection "connect ECONNREFUSED 127.0.0.1:8000").message)] ∧
      (handleAsk "ping"
          (Except.error (PostError.connection "connect ECONNREFUSED 127.0.0.1:8000"))).countP
          Event.isErrorMsg = 1 ∧
      (handleAsk "ping"
          (Except.error (PostError.connection "connect ECONNREFUSED 127.0.0.1:8000"))).countP
          Event.isAnswer = 0) :=
  ⟨by decide, failure_emits_single_error "ping"
    (PostError.connection "connect ECONNREFUSED 127.0.0.1:8000") (by decide)⟩

/-- C8: a second show request without an intervening close reveals the
panel the first request left registered and changes nothing — for both
panel kinds.  The registries hold at most one panel per kind by
construction (a keyed map slot and a singleton field), so exactly one
live panel remains registered for the kind after the two calls. -/
theorem second_show_reveals_existing (a : ArchRegistry) (c : ChatRegistry) :
    (∃ p, (archCreateOrShow a).1.panels archDriftPanelKey = some p ∧
       archCreateOrShow (archCreateOrShow a).1 =
         ((archCreateOrShow a).1, PanelAction.revealed p)) ∧
    (∃ q, (chatCreateOrShow c).1.currentPanel = some q ∧
       chatCreateOrShow (chatCreateOrShow c).1 =
         ((chatCreateOrShow c).1, PanelAction.revealed q)) := by
  constructor
  · rcases h : a.panels archDriftPanelKey with _ | p
    · exact ⟨a.nextId, by simp [archCreateOrShow, h], by simp [archCreateOrShow, h]⟩
    · exact ⟨p, by simp [archCreateOrShow, h], by simp [archCreateOrShow, h]⟩
  · rcases h : c.currentPanel with _ | q
    · exact ⟨c.nextId, by simp [chatCreateOrShow, h], by simp [chatCreateOrShow, h]⟩
    · exact ⟨q, by simp [chatCreateOrShow, h], by simp [chatCreateOrShow, h]⟩

/-- C9: disposing a panel clears its registry entry (for the chat kind
this discards the panel object that carries the session controller),
and the next show request for the same kind constructs and registers a
fresh instance — allocation ids are drawn from the counter, and every
registered id is below the counter, so the new id differs from the
disposed one.  Stated for both panel kinds. -/
theorem dispose_then_show_creates_fresh (a : ArchRegistry) (c : ChatRegistry)
    (p q : Nat) (ha : a.panels archDriftPanelKey = some p) (hpa : p < a.nextId)
    (hc : c.currentPanel = some q) (hqc : q < c.nextId) :
    ((archDispose a).panels archDriftPanelKey = none ∧
       (archCreateOrShow (archDispose a)).2 = PanelAction.created a.nextId ∧
       (archCreateOrShow (archDispose a)).1.panels archDriftPanelKey =
         some a.nextId ∧
       a.nextId ≠ p) ∧
    ((chatDispose c).currentPanel = none ∧
       (chatCreateOrShow (chatDispose c)).2 = PanelAction.created c.nextId ∧
       (chatCreateOrShow (chatDispose c)).1.currentPanel = some c.nextId ∧
       c.nextId ≠ q) := by
  refine ⟨⟨?_, ?_, ?_, by omega⟩, ⟨rfl, rfl, rfl, by omega⟩⟩
  · unfold archDispose
    simp
  · unfold archCreateOrShow archDispose
    simp
  · unfold archCreateOrShow archDispose
    simp

/-- A sample arch-drift registry holding panel 0 under the key, with
the allocator at 1. -/
def sampleArchRegistry : ArchRegistry :=
  { panels := fun k => if k = archDriftPanelKey then some 0 else none,
    nextId := 1 }

/-- A sample chat registry holding panel 0, with the allocator at 1. -/
def sampleChatRegistry : ChatRegistry :=
  { currentPanel := some 0, nextId := 1 }

/-- Witness for C9 at registries each holding one live panel. -/
theorem dispose_then_show_creates_fresh_witness :
    (sampleArchRegistry.panels archDriftPanelKey = some 0 ∧
       0 < sampleArchRegistry.nextId ∧
       sampleChatRegistry.currentPanel = some 0 ∧
       0 < sampleChatRegistry.nextId) ∧
    (((archDispose sampleArchRegistry).panels archDriftPanelKey = none ∧
       (archCreateOrShow (archDispose sampleArchRegistry)).2 =
         PanelAction.created sampleArchRegistry.nextId ∧
       (archCreateOrShow (archDispose sampleArchRegistry)).1.panels
           archDriftPanelKey = some sampleArchRegistry.nextId ∧
       sampleArchRegistry.nextId ≠ 0) ∧
     ((chatDispose sampleChatRegistry).currentPanel = none ∧
       (chatCreateOrShow (chatDispose sampleChatRegistry)).2 =
         PanelAction.created sampleChatRegistry.nextId ∧
       (chatCreateOrShow (chatDispose sampleChatRegistry)).1.currentPanel =
         some sampleChatRegistry.nextId ∧
       sampleChatRegistry.nextId ≠ 0)) :=
  ⟨⟨by decide, by decide, by decide, by decide⟩,
   dispose_then_show_creates_fresh sampleArchRegistry sampleChatRegistry 0 0
     (by decide) (by decide) (by decide) (by decide)⟩

/-- C10: an inbound `openArchDrift` message whose `url` is absent or
falsy (the empty string) is silently ignored — no external-open
request, no message, no other effect; a truthy `url` produces exactly
the external-open request for that url. -/
theorem falsy_url_open_ignored (outcome : Except PostError ServiceResponse)
    (u : String) (hu : u ≠ "") :
    webviewMessageHandler (InboundMessage.openArchDrift none) outcome = [] ∧
    webviewMessageHandler (InboundMessage.openArchDrift (some "")) outcome = [] ∧
    webviewMessageHandler (InboundMessage.openArchDrift (some u)) outcome =
      [Event.openExternal u] := by
  refine ⟨rfl, rfl, ?_⟩
  unfold webviewMessageHandler
  simp [hu]

/-- Witness for C10 at the ArchDrift site url. -/
theorem falsy_url_open_ignored_witness :
    (("https://arch-drift.vercel.app/" : String) ≠ "") ∧
      (webviewMessageHandler (InboundMessage.openArchDrift none)
          (Except.ok archDriftResponse) = [] ∧
       webviewMessageHandler (InboundMessage.openArchDrift (some ""))
          (Except.ok archDriftResponse) = [] ∧
       webviewMessageHandler
          (InboundMessage.openArchDrift (some "https://arch-drift.vercel.app/"))
          (Except.ok archDriftResponse) =
        [Event.openExternal "https://arch-drift.vercel.app/"]) :=
  ⟨by decide, falsy_url_open_ignored (Except.ok archDriftResponse)
    "https://arch-drift.vercel.app/" (by decide)⟩
